import Mathlib

/-!
# Cache-aside product handlers

A shallow embedding of `controller/product_controller.go`
(`ProductController.GetAllProduct` and `ProductController.GetProductById`).

The handlers talk to collaborators whose code lives in other packages
(`cache`, `util`, `service`, the payload DTOs).  Each collaborator is a field of a
dependency record, so every theorem below holds for all of their implementations.
A run of a handler is the list of effects it performs, in program order, together
with the way it ends: a panic value, or the arguments of `apiresponse.Ok`.
-/

namespace ProductCrud

/-! ## Contexts, requests, effects -/

/-- Go context values: `context.Background()`, the request context `c`
(a `*gin.Context`), and `context.WithTimeout(parent, seconds * time.Second)`. -/
inductive Ctx where
  | background : Ctx
  | request : Ctx
  | withTimeout (parent : Ctx) (seconds : Nat) : Ctx
  deriving DecidableEq, Repr

/-- The part of `*gin.Context` the handlers read: path parameters and query
parameters, both in order of appearance. -/
structure Request where
  params : List (String × String)
  query : List (String × String)
  deriving DecidableEq, Repr

/-- First value bound to `key` in an ordered list of bindings. -/
def lookupFirst (key : String) : List (String × String) → Option String
  | [] => none
  | (k, v) :: rest => if k = key then some v else lookupFirst key rest

/-- Gin `c.Param(key)`: the value of the first path parameter named `key`,
the empty string when there is none. -/
def Request.Param (c : Request) (key : String) : String :=
  (lookupFirst key c.params).getD ""

/-- Gin `c.DefaultQuery(key, defaultValue)`: the first value of the query
parameter `key` when the key is present, `defaultValue` otherwise. -/
def Request.DefaultQuery (c : Request) (key defaultValue : String) : String :=
  match lookupFirst key c.query with
  | some value => value
  | none => defaultValue

/-- Kind of a `strconv.NumError`. -/
inductive NumErrKind where
  | ErrSyntax : NumErrKind
  | ErrRange : NumErrKind
  deriving DecidableEq, Repr

/-- Go `strconv.NumError`. -/
structure NumError where
  Func : String
  Num : String
  Err : NumErrKind
  deriving DecidableEq, Repr

deriving instance DecidableEq for Except

/-- Observable effects of a handler run.  `cacheGet` records the call
`cache.Get(ctx, key, &dest)` with the error it returned and the value it left in
`dest`; `source` records the call to the product service with its result;
`goCacheSet` records the start of the goroutine that calls
`cache.Set(ctx, key, value)`. -/
inductive Event (Err A P : Type) where
  | logInfo (msg : String) : Event Err A P
  | logError (err : Err) : Event Err A P
  | logNumError (err : NumError) : Event Err A P
  | cacheGet (ctx : Ctx) (key : String) (err : Option Err) (dest : P) : Event Err A P
  | source (arg : A) (result : Except Err P) : Event Err A P
  | goCacheSet (ctx : Ctx) (key : String) (value : P) : Event Err A P
  deriving DecidableEq

/-- How a handler run ends: `panic(v)`, or `apiresponse.Ok(c, data, isFromCache)`. -/
inductive Outcome (Err P : Type) where
  | panic (v : Err) : Outcome Err P
  | ok (data : P) (isFromCache : Bool) : Outcome Err P
  deriving DecidableEq

/-- A handler run: its effects in program order and its outcome. -/
structure Run (Err A P : Type) where
  trace : List (Event Err A P)
  outcome : Outcome Err P
  deriving DecidableEq

/-- The event is a call of `cache.Get`. -/
def Event.isCacheGet {Err A P : Type} : Event Err A P → Bool
  | .cacheGet _ _ _ _ => true
  | _ => false

/-- The event is a call of the product service. -/
def Event.isSource {Err A P : Type} : Event Err A P → Bool
  | .source _ _ => true
  | _ => false

/-- The event is the dispatch of a backfill `cache.Set`. -/
def Event.isCacheSet {Err A P : Type} : Event Err A P → Bool
  | .goCacheSet _ _ _ => true
  | _ => false

/-- Number of backfill dispatches in a trace. -/
def countSets {Err A P : Type} (t : List (Event Err A P)) : Nat :=
  t.countP Event.isCacheSet

/-! ## `strconv.Atoi` (64-bit `int`) -/

/-- Largest `uint64`. -/
def maxUint64 : Nat := 2 ^ 64 - 1

/-- Digit loop of `strconv.ParseUint(s, 10, 64)`: a byte outside `0..9` is a
`ErrSyntax`, an overflow of `uint64` is a `ErrRange`. -/
def parseUintLoop : List Char → Nat → Except NumErrKind Nat
  | [], n => .ok n
  | ch :: rest, n =>
    if '0' ≤ ch ∧ ch ≤ '9' then
      if n ≥ maxUint64 / 10 + 1 then .error NumErrKind.ErrRange
      else if n * 10 + (ch.toNat - '0'.toNat) > maxUint64 then .error NumErrKind.ErrRange
      else parseUintLoop rest (n * 10 + (ch.toNat - '0'.toNat))
    else .error NumErrKind.ErrSyntax

/-- Go `strconv.ParseUint(s, 10, 64)`. -/
def ParseUint (s : List Char) : Except NumErrKind Nat :=
  if s = [] then .error NumErrKind.ErrSyntax else parseUintLoop s 0

/-- Go `strconv.ParseInt(s, 10, 0)` with a 64-bit `int`. -/
def ParseInt (s : List Char) : Except NumErrKind Int :=
  match s with
  | [] => .error NumErrKind.ErrSyntax
  | ch :: rest =>
    let neg := decide (ch = '-')
    let body := if ch = '+' ∨ ch = '-' then rest else ch :: rest
    match ParseUint body with
    | .error NumErrKind.ErrSyntax => .error NumErrKind.ErrSyntax
    | .error NumErrKind.ErrRange => .error NumErrKind.ErrRange
    | .ok un =>
      if !neg ∧ un ≥ 2 ^ 63 then .error NumErrKind.ErrRange
      else if neg ∧ un > 2 ^ 63 then .error NumErrKind.ErrRange
      else .ok (if neg then -(un : Int) else (un : Int))

/-- Digit loop of the fast path of `strconv.Atoi`. -/
def atoiFastLoop : List Char → Nat → Option Nat
  | [], n => some n
  | ch :: rest, n =>
    if '0' ≤ ch ∧ ch ≤ '9' then atoiFastLoop rest (n * 10 + (ch.toNat - '0'.toNat))
    else none

/-- Go `strconv.Atoi` for a 64-bit `int`: strings of 1 to 18 bytes take the fast
path, every other string goes through `ParseInt(s, 10, 0)`. -/
def Atoi (s : String) : Except NumError Int :=
  if 0 < s.utf8ByteSize ∧ s.utf8ByteSize < 19 then
    match s.data with
    | [] => .error ⟨"Atoi", s, NumErrKind.ErrSyntax⟩
    | ch :: rest =>
      let body := if ch = '-' ∨ ch = '+' then rest else ch :: rest
      if body.length < 1 then .error ⟨"Atoi", s, NumErrKind.ErrSyntax⟩
      else
        match atoiFastLoop body 0 with
        | none => .error ⟨"Atoi", s, NumErrKind.ErrSyntax⟩
        | some n => .ok (if ch = '-' then -(n : Int) else (n : Int))
  else
    match ParseInt s.data with
    | .error kind => .error ⟨"Atoi", s, kind⟩
    | .ok i => .ok i

/-- Go conversion `uint(id)` of a 64-bit `int`. -/
def toUint (id : Int) : Nat :=
  (id % (2 ^ 64 : Int)).toNat

/-! ## The handlers -/

/-- Collaborators of `GetAllProduct`.  `Pg` is the pagination descriptor, `P` is
`app.PaginatedResult[response.GetProductResponse]`, `zero` its Go zero value.
`cacheGet ctx key dest` is `cache.Get(ctx, key, &dest)`: the error it returns and
the value it leaves in the destination. -/
structure AllDeps (Err Pg P : Type) where
  GeneratePaginationFromRequest : Request → Except Err Pg
  HashFromStruct : Pg → Except Err String
  cacheGet : Ctx → String → P → Option Err × P
  GetAll : Pg → Except Err P
  IsEmpty : P → Bool
  zero : P

/-- Collaborators of `GetProductById`.  `P` is `response.GetProductResponse`,
`zero` its Go zero value, `INTERNAL_ERROR` is `errorconstants.INTERNAL_ERROR`. -/
structure ByIdDeps (Err P : Type) where
  INTERNAL_ERROR : Err
  cacheGet : Ctx → String → P → Option Err × P
  GetById : Nat → Except Err P
  IsEmpty : P → Bool
  zero : P

/-- Handler `ProductController.GetAllProduct`. -/
def GetAllProduct {Err Pg P : Type} (d : AllDeps Err Pg P) (c : Request) : Run Err Pg P :=
  let t0 : List (Event Err Pg P) := [Event.logInfo "Get all product request"]
  match d.GeneratePaginationFromRequest c with
  | .error err => ⟨t0, Outcome.panic err⟩
  | .ok pagination =>
    match d.HashFromStruct pagination with
    | .error err => ⟨t0, Outcome.panic err⟩
    | .ok hash =>
      let key := "GetAllProduct:all:" ++ hash
      let ctx := Ctx.withTimeout Ctx.request 3
      let rd : List (Event Err Pg P) × P :=
        if c.DefaultQuery "no_cache" "0" = "0" then
          match d.cacheGet ctx key d.zero with
          | (some err, got) => ([Event.cacheGet ctx key (some err) got, Event.logError err], got)
          | (none, got) => ([Event.cacheGet ctx key none got], got)
        else ([], d.zero)
      let products := rd.2
      if !d.IsEmpty products then
        ⟨t0 ++ rd.1 ++ [Event.logInfo "Get all product success"], Outcome.ok products true⟩
      else
        match d.GetAll pagination with
        | .error err => ⟨t0 ++ rd.1 ++ [Event.source pagination (.error err)], Outcome.panic err⟩
        | .ok val =>
          ⟨t0 ++ rd.1 ++ [Event.source pagination (.ok val),
              Event.goCacheSet (Ctx.withTimeout Ctx.request 3) key val,
              Event.logInfo "Get all product success"],
            Outcome.ok val false⟩

/-- Handler `ProductController.GetProductById`. -/
def GetProductById {Err P : Type} (d : ByIdDeps Err P) (c : Request) : Run Err Nat P :=
  let t0 : List (Event Err Nat P) :=
    [Event.logInfo ("Get product by id request, id = " ++ c.Param "id")]
  match Atoi (c.Param "id") with
  | .error err => ⟨t0 ++ [Event.logNumError err], Outcome.panic d.INTERNAL_ERROR⟩
  | .ok id =>
    let key := "GetProductById:" ++ c.Param "id"
    let ctx := Ctx.withTimeout Ctx.request 3
    let rd : List (Event Err Nat P) × P :=
      if c.DefaultQuery "no_cache" "0" = "0" then
        match d.cacheGet ctx key d.zero with
        | (some err, got) => ([Event.cacheGet ctx key (some err) got, Event.logError err], got)
        | (none, got) => ([Event.cacheGet ctx key none got], got)
      else ([], d.zero)
    let product := rd.2
    if !d.IsEmpty product then
      ⟨t0 ++ rd.1 ++ [Event.logInfo ("Get product by id, id = " ++ c.Param "id" ++ " success")],
        Outcome.ok product true⟩
    else
      match d.GetById (toUint id) with
      | .error err => ⟨t0 ++ rd.1 ++ [Event.source (toUint id) (.error err)], Outcome.panic err⟩
      | .ok val =>
        ⟨t0 ++ rd.1 ++ [Event.source (toUint id) (.ok val),
            Event.goCacheSet (Ctx.withTimeout Ctx.request 3) key val,
            Event.logInfo ("Get product by id, id = " ++ c.Param "id" ++ " success")],
          Outcome.ok val false⟩

/-- The cache read that both handlers perform after deriving the key, as a
function of its own: `cache.Get` is called only when
`c.DefaultQuery("no_cache", "0") == "0"`, and its error is logged.  Returns the
effects and the value of the destination variable afterwards.  Used to state
facts about the handlers (`GetAllProduct_derived`, `GetProductById_derived`). -/
def readThrough {Err A P : Type} (cacheGet : Ctx → String → P → Option Err × P)
    (c : Request) (key : String) (dest : P) : List (Event Err A P) × P :=
  let ctx := Ctx.withTimeout Ctx.request 3
  if c.DefaultQuery "no_cache" "0" = "0" then
    match cacheGet ctx key dest with
    | (some err, dest1) => ([Event.cacheGet ctx key (some err) dest1, Event.logError err], dest1)
    | (none, dest1) => ([Event.cacheGet ctx key none dest1], dest1)
  else ([], dest)

/-- The four ways a handler run can look: stopped before any fetch, answered from
the cache, failed in the product service, or answered from the product service
after dispatching one backfill.  The events of `pre` are neither calls of the
product service nor backfill dispatches. -/
def RunShape {Err A P : Type} (src : A → Except Err P) (run : Run Err A P) : Prop :=
  ∃ pre : List (Event Err A P),
    (∀ e ∈ pre, e.isSource = false ∧ e.isCacheSet = false) ∧
    ((∃ v, run = ⟨pre, Outcome.panic v⟩) ∨
     (∃ p, run = ⟨pre, Outcome.ok p true⟩) ∨
     (∃ a err, src a = .error err ∧
        run = ⟨pre ++ [Event.source a (.error err)], Outcome.panic err⟩) ∨
     (∃ a key val msg, src a = .ok val ∧
        run = ⟨pre ++ [Event.source a (.ok val),
                Event.goCacheSet (Ctx.withTimeout Ctx.request 3) key val,
                Event.logInfo msg], Outcome.ok val false⟩))

/-- The cache key an event carries, for calls of `cache.Get` and backfill
dispatches. -/
def Event.cacheKey? {Err A P : Type} : Event Err A P → Option String
  | .cacheGet _ key _ _ => some key
  | .goCacheSet _ key _ => some key
  | _ => none

/-! ## Concrete collaborators used to run the handlers -/

/-- Modelled from the spec: the paginated result envelope of `dto/app`, which is
not part of the sources at hand (items, page metadata, total count). -/
structure PaginatedResult (T : Type) where
  Items : List T
  Page : Nat
  Size : Nat
  TotalItems : Nat
  deriving DecidableEq, Repr

/-- Modelled from the spec: structural emptiness of a paginated result, a result
with zero items (`PaginatedResult.IsEmpty` is not part of the sources at hand). -/
def PaginatedResult.IsEmpty {T : Type} (p : PaginatedResult T) : Bool :=
  p.Items.isEmpty

/-- Modelled from the spec: a product entity as served by `GetProductById`
(`response.GetProductResponse` is not part of the sources at hand). -/
structure GetProductResponse where
  Id : Nat
  Name : String
  deriving DecidableEq, Repr

/-- Modelled from the spec: structural emptiness of a product, equality with the
Go zero value (`GetProductResponse.IsEmpty` is not part of the sources at hand). -/
def GetProductResponse.IsEmpty (p : GetProductResponse) : Bool :=
  decide (p = ⟨0, ""⟩)

/-- Collaborators for a sample run of `GetAllProduct`: pagination is read as
page 1 of size 10 and hashes to `h`, `cache.Get` returns `got` and the product
service returns `src`. -/
def sampleAll (got : Option String × PaginatedResult Nat)
    (src : Except String (PaginatedResult Nat)) :
    AllDeps String (Nat × Nat) (PaginatedResult Nat) where
  GeneratePaginationFromRequest := fun _ => .ok (1, 10)
  HashFromStruct := fun _ => .ok "h"
  cacheGet := fun _ _ _ => got
  GetAll := fun _ => src
  IsEmpty := PaginatedResult.IsEmpty
  zero := ⟨[], 0, 0, 0⟩

/-- Collaborators for a sample run of `GetAllProduct` whose pagination
descriptor cannot be hashed. -/
def sampleAllNoHash : AllDeps String (Nat × Nat) (PaginatedResult Nat) where
  GeneratePaginationFromRequest := fun _ => .ok (1, 10)
  HashFromStruct := fun _ => .error "unsupported type"
  cacheGet := fun _ _ _ => (none, ⟨[7], 1, 10, 1⟩)
  GetAll := fun _ => .ok ⟨[7], 1, 10, 1⟩
  IsEmpty := PaginatedResult.IsEmpty
  zero := ⟨[], 0, 0, 0⟩

/-- Collaborators for a sample run of `GetProductById`: `cache.Get` returns
`got` and the product service returns `src`. -/
def sampleById (got : Option String × GetProductResponse)
    (src : Except String GetProductResponse) : ByIdDeps String GetProductResponse where
  INTERNAL_ERROR := "internal error"
  cacheGet := fun _ _ _ => got
  GetById := fun _ => src
  IsEmpty := GetProductResponse.IsEmpty
  zero := ⟨0, ""⟩

/-- A request with the given `id` path parameter and query parameters. -/
def sampleRequest (id : String) (query : List (String × String)) : Request where
  params := [("id", id)]
  query := query

/-! ## Basic facts -/

theorem defaultQuery_noCache (c : Request) :
    c.DefaultQuery "no_cache" "0" = "0" ↔
      (lookupFirst "no_cache" c.query = none ∨ lookupFirst "no_cache" c.query = some "0") := by
  unfold Request.DefaultQuery
  cases h : lookupFirst "no_cache" c.query <;> simp

theorem defaultQuery_bypass (c : Request) (v : String)
    (h : lookupFirst "no_cache" c.query = some v) (hv : v ≠ "0") :
    ¬ c.DefaultQuery "no_cache" "0" = "0" := by
  unfold Request.DefaultQuery
  simp [h, hv]

theorem readThrough_read {Err A P : Type} (cacheGet : Ctx → String → P → Option Err × P)
    (c : Request) (key : String) (dest : P) (err : Option Err) (p : P)
    (hflag : c.DefaultQuery "no_cache" "0" = "0")
    (hget : cacheGet (Ctx.withTimeout Ctx.request 3) key dest = (err, p)) :
    (readThrough cacheGet c key dest : List (Event Err A P) × P) =
      (Event.cacheGet (Ctx.withTimeout Ctx.request 3) key err p ::
        (match err with
          | some e => [Event.logError e]
          | none => []), p) := by
  unfold readThrough
  simp only [hflag, if_true, hget]
  cases err <;> rfl

theorem readThrough_bypass {Err A P : Type} (cacheGet : Ctx → String → P → Option Err × P)
    (c : Request) (key : String) (dest : P)
    (hflag : ¬ c.DefaultQuery "no_cache" "0" = "0") :
    (readThrough cacheGet c key dest : List (Event Err A P) × P) = ([], dest) := by
  unfold readThrough
  simp only [hflag, if_false]

/-- The cache read never calls the product service and never dispatches a backfill. -/
theorem readThrough_events {Err A P : Type} (cacheGet : Ctx → String → P → Option Err × P)
    (c : Request) (key : String) (dest : P) :
    ∀ e ∈ (readThrough cacheGet c key dest : List (Event Err A P) × P).1,
      e.isSource = false ∧ e.isCacheSet = false := by
  by_cases hflag : c.DefaultQuery "no_cache" "0" = "0"
  · rcases hget : cacheGet (Ctx.withTimeout Ctx.request 3) key dest with ⟨err, p⟩
    rw [readThrough_read cacheGet c key dest err p hflag hget]
    cases err <;> simp [Event.isSource, Event.isCacheSet]
  · rw [readThrough_bypass cacheGet c key dest hflag]
    simp


/-- Run of `GetAllProduct` once the key has been derived. -/
theorem GetAllProduct_derived {Err Pg P : Type} (d : AllDeps Err Pg P) (c : Request)
    (pg : Pg) (hash : String)
    (hpg : d.GeneratePaginationFromRequest c = .ok pg) (hhash : d.HashFromStruct pg = .ok hash) :
    GetAllProduct d c =
      if d.IsEmpty (readThrough (A := Pg) d.cacheGet c ("GetAllProduct:all:" ++ hash) d.zero).2
          = false then
        ⟨Event.logInfo "Get all product request" ::
            ((readThrough d.cacheGet c ("GetAllProduct:all:" ++ hash) d.zero).1 ++
              [Event.logInfo "Get all product success"]),
          Outcome.ok (readThrough (A := Pg) d.cacheGet c ("GetAllProduct:all:" ++ hash) d.zero).2
            true⟩
      else
        match d.GetAll pg with
        | .error err =>
          ⟨Event.logInfo "Get all product request" ::
              ((readThrough d.cacheGet c ("GetAllProduct:all:" ++ hash) d.zero).1 ++
                [Event.source pg (.error err)]),
            Outcome.panic err⟩
        | .ok val =>
          ⟨Event.logInfo "Get all product request" ::
              ((readThrough d.cacheGet c ("GetAllProduct:all:" ++ hash) d.zero).1 ++
                [Event.source pg (.ok val),
                  Event.goCacheSet (Ctx.withTimeout Ctx.request 3) ("GetAllProduct:all:" ++ hash)
                    val,
                  Event.logInfo "Get all product success"]),
            Outcome.ok val false⟩ := by
  unfold GetAllProduct readThrough
  simp only [hpg, hhash]
  by_cases hq : c.DefaultQuery "no_cache" "0" = "0"
  · rcases hget : d.cacheGet (Ctx.withTimeout Ctx.request 3) ("GetAllProduct:all:" ++ hash)
      d.zero with ⟨_ | err, p⟩ <;> cases hE : d.IsEmpty p <;> simp [hq, hE]
  · cases hE : d.IsEmpty d.zero <;> simp [hq, hE]

/-- Run of `GetProductById` once the `id` parameter has been parsed. -/
theorem GetProductById_derived {Err P : Type} (d : ByIdDeps Err P) (c : Request) (id : Int)
    (hid : Atoi (c.Param "id") = .ok id) :
    GetProductById d c =
      if d.IsEmpty (readThrough (A := Nat) d.cacheGet c ("GetProductById:" ++ c.Param "id")
          d.zero).2 = false then
        ⟨Event.logInfo ("Get product by id request, id = " ++ c.Param "id") ::
            ((readThrough d.cacheGet c ("GetProductById:" ++ c.Param "id") d.zero).1 ++
              [Event.logInfo ("Get product by id, id = " ++ c.Param "id" ++ " success")]),
          Outcome.ok (readThrough (A := Nat) d.cacheGet c ("GetProductById:" ++ c.Param "id")
            d.zero).2 true⟩
      else
        match d.GetById (toUint id) with
        | .error err =>
          ⟨Event.logInfo ("Get product by id request, id = " ++ c.Param "id") ::
              ((readThrough d.cacheGet c ("GetProductById:" ++ c.Param "id") d.zero).1 ++
                [Event.source (toUint id) (.error err)]),
            Outcome.panic err⟩
        | .ok val =>
          ⟨Event.logInfo ("Get product by id request, id = " ++ c.Param "id") ::
              ((readThrough d.cacheGet c ("GetProductById:" ++ c.Param "id") d.zero).1 ++
                [Event.source (toUint id) (.ok val),
                  Event.goCacheSet (Ctx.withTimeout Ctx.request 3)
                    ("GetProductById:" ++ c.Param "id") val,
                  Event.logInfo ("Get product by id, id = " ++ c.Param "id" ++ " success")]),
            Outcome.ok val false⟩ := by
  unfold GetProductById readThrough
  simp only [hid]
  by_cases hq : c.DefaultQuery "no_cache" "0" = "0"
  · rcases hget : d.cacheGet (Ctx.withTimeout Ctx.request 3)
      ("GetProductById:" ++ c.Param "id") d.zero with ⟨_ | err, p⟩ <;>
      cases hE : d.IsEmpty p <;> simp [hq, hE]
  · cases hE : d.IsEmpty d.zero <;> simp [hq, hE]


theorem GetAllProduct_shape {Err Pg P : Type} (d : AllDeps Err Pg P) (c : Request) :
    RunShape d.GetAll (GetAllProduct d c) := by
  cases hpg : d.GeneratePaginationFromRequest c with
  | error err =>
    refine ⟨[Event.logInfo "Get all product request"], ?_, Or.inl ⟨err, ?_⟩⟩
    · simp [Event.isSource, Event.isCacheSet]
    · simp [GetAllProduct, hpg]
  | ok pg =>
    cases hhash : d.HashFromStruct pg with
    | error err =>
      refine ⟨[Event.logInfo "Get all product request"], ?_, Or.inl ⟨err, ?_⟩⟩
      · simp [Event.isSource, Event.isCacheSet]
      · simp [GetAllProduct, hpg, hhash]
    | ok hash =>
      rw [GetAllProduct_derived d c pg hash hpg hhash]
      have hev := readThrough_events (A := Pg) d.cacheGet c ("GetAllProduct:all:" ++ hash) d.zero
      cases hE : d.IsEmpty
          (readThrough (A := Pg) d.cacheGet c ("GetAllProduct:all:" ++ hash) d.zero).2 with
      | false =>
        refine ⟨Event.logInfo "Get all product request" ::
            ((readThrough d.cacheGet c ("GetAllProduct:all:" ++ hash) d.zero).1 ++
              [Event.logInfo "Get all product success"]), ?_,
          Or.inr (Or.inl ⟨(readThrough (A := Pg) d.cacheGet c ("GetAllProduct:all:" ++ hash)
            d.zero).2, by simp⟩)⟩
        intro e he
        simp only [List.mem_cons, List.mem_append, List.not_mem_nil, or_false] at he
        rcases he with rfl | he | rfl
        · simp [Event.isSource, Event.isCacheSet]
        · exact hev e he
        · simp [Event.isSource, Event.isCacheSet]
      | true =>
        have hpre : ∀ e ∈ Event.logInfo "Get all product request" ::
            (readThrough (A := Pg) d.cacheGet c ("GetAllProduct:all:" ++ hash) d.zero).1,
            e.isSource = false ∧ e.isCacheSet = false := by
          intro e he
          simp only [List.mem_cons] at he
          rcases he with rfl | he
          · simp [Event.isSource, Event.isCacheSet]
          · exact hev e he
        cases hsrc : d.GetAll pg with
        | error err =>
          exact ⟨_, hpre, Or.inr (Or.inr (Or.inl ⟨pg, err, hsrc, by simp⟩))⟩
        | ok val =>
          exact ⟨_, hpre, Or.inr (Or.inr (Or.inr ⟨pg, "GetAllProduct:all:" ++ hash, val,
            "Get all product success", hsrc, by simp⟩))⟩


theorem GetProductById_shape {Err P : Type} (d : ByIdDeps Err P) (c : Request) :
    RunShape d.GetById (GetProductById d c) := by
  cases hid : Atoi (c.Param "id") with
  | error err =>
    refine ⟨[Event.logInfo ("Get product by id request, id = " ++ c.Param "id"),
      Event.logNumError err], ?_, Or.inl ⟨d.INTERNAL_ERROR, ?_⟩⟩
    · simp [Event.isSource, Event.isCacheSet]
    · simp [GetProductById, hid]
  | ok id =>
    rw [GetProductById_derived d c id hid]
    have hev := readThrough_events (A := Nat) d.cacheGet c ("GetProductById:" ++ c.Param "id")
      d.zero
    cases hE : d.IsEmpty
        (readThrough (A := Nat) d.cacheGet c ("GetProductById:" ++ c.Param "id") d.zero).2 with
    | false =>
      refine ⟨Event.logInfo ("Get product by id request, id = " ++ c.Param "id") ::
          ((readThrough d.cacheGet c ("GetProductById:" ++ c.Param "id") d.zero).1 ++
            [Event.logInfo ("Get product by id, id = " ++ c.Param "id" ++ " success")]), ?_,
        Or.inr (Or.inl ⟨(readThrough (A := Nat) d.cacheGet c
          ("GetProductById:" ++ c.Param "id") d.zero).2, by simp⟩)⟩
      intro e he
      simp only [List.mem_cons, List.mem_append, List.not_mem_nil, or_false] at he
      rcases he with rfl | he | rfl
      · simp [Event.isSource, Event.isCacheSet]
      · exact hev e he
      · simp [Event.isSource, Event.isCacheSet]
    | true =>
      have hpre : ∀ e ∈ Event.logInfo ("Get product by id request, id = " ++ c.Param "id") ::
          (readThrough (A := Nat) d.cacheGet c ("GetProductById:" ++ c.Param "id") d.zero).1,
          e.isSource = false ∧ e.isCacheSet = false := by
        intro e he
        simp only [List.mem_cons] at he
        rcases he with rfl | he
        · simp [Event.isSource, Event.isCacheSet]
        · exact hev e he
      cases hsrc : d.GetById (toUint id) with
      | error err =>
        exact ⟨_, hpre, Or.inr (Or.inr (Or.inl ⟨toUint id, err, hsrc, by simp⟩))⟩
      | ok val =>
        exact ⟨_, hpre, Or.inr (Or.inr (Or.inr ⟨toUint id, "GetProductById:" ++ c.Param "id",
          val, "Get product by id, id = " ++ c.Param "id" ++ " success", hsrc, by simp⟩))⟩

theorem countSets_pre {Err A P : Type} (pre : List (Event Err A P))
    (hpre : ∀ e ∈ pre, e.isSource = false ∧ e.isCacheSet = false) : countSets pre = 0 := by
  unfold countSets
  rw [List.countP_eq_zero]
  intro e he
  simp [(hpre e he).2]

/-- In every run at most one backfill is dispatched. -/
theorem RunShape.countSets_le_one {Err A P : Type} {src : A → Except Err P}
    {run : Run Err A P} (h : RunShape src run) : countSets run.trace ≤ 1 := by
  obtain ⟨pre, hpre, h⟩ := h
  have h0 := countSets_pre pre hpre
  unfold countSets at h0 ⊢
  rcases h with ⟨v, rfl⟩ | ⟨p, rfl⟩ | ⟨a, err, -, rfl⟩ | ⟨a, key, val, msg, -, rfl⟩ <;>
    simp [List.countP_append, List.countP_cons, h0, Event.isCacheSet]

/-- A backfill is dispatched exactly when a call of the product service returned
without error. -/
theorem RunShape.set_iff_source_ok {Err A P : Type} {src : A → Except Err P}
    {run : Run Err A P} (h : RunShape src run) :
    (∃ ctx key val, Event.goCacheSet ctx key val ∈ run.trace) ↔
      (∃ a r, Event.source a (.ok r) ∈ run.trace ∧ src a = .ok r) := by
  obtain ⟨pre, hpre, h⟩ := h
  have hnoSet : ∀ ctx key val, Event.goCacheSet ctx key val ∉ pre := by
    intro ctx key val hmem
    simpa [Event.isCacheSet] using (hpre _ hmem).2
  have hnoSrc : ∀ a r, Event.source a r ∉ pre := by
    intro a r hmem
    simpa [Event.isSource] using (hpre _ hmem).1
  rcases h with ⟨v, rfl⟩ | ⟨p, rfl⟩ | ⟨a, err, hs, rfl⟩ | ⟨a, key, val, msg, hs, rfl⟩
  · simp [hnoSet, hnoSrc]
  · simp [hnoSet, hnoSrc]
  · simp [hnoSet, hnoSrc]
  · constructor
    · intro _
      exact ⟨a, val, by simp, hs⟩
    · intro _
      exact ⟨Ctx.withTimeout Ctx.request 3, key, val, by simp⟩

/-- Every recorded call of the product service carries the result the service
returned, and a failed call ends the run with a panic on that very error, without
any backfill. -/
theorem RunShape.source_result {Err A P : Type} {src : A → Except Err P}
    {run : Run Err A P} (h : RunShape src run) (a : A) (res : Except Err P)
    (hmem : Event.source a res ∈ run.trace) :
    res = src a ∧
      ∀ err, res = .error err →
        run.outcome = Outcome.panic err ∧ ∀ e ∈ run.trace, e.isCacheSet = false := by
  obtain ⟨pre, hpre, h⟩ := h
  have hnoSrc : ∀ a r, Event.source a r ∉ pre := by
    intro a r hm
    simpa [Event.isSource] using (hpre _ hm).1
  rcases h with ⟨v, rfl⟩ | ⟨p, rfl⟩ | ⟨a1, err1, hs, rfl⟩ | ⟨a1, key, val, msg, hs, rfl⟩
  · exact absurd hmem (hnoSrc a res)
  · exact absurd hmem (hnoSrc a res)
  · simp only [List.mem_append, List.mem_singleton, hnoSrc, false_or, Event.source.injEq] at hmem
    obtain ⟨rfl, rfl⟩ := hmem
    refine ⟨hs.symm, ?_⟩
    intro err herr
    cases herr
    refine ⟨rfl, ?_⟩
    intro e he
    simp only [List.mem_append, List.mem_singleton] at he
    rcases he with he | rfl
    · exact (hpre e he).2
    · rfl
  · simp only [List.mem_append, List.mem_cons, hnoSrc, false_or, Event.source.injEq,
      List.not_mem_nil, or_false, reduceCtorEq] at hmem
    obtain ⟨rfl, rfl⟩ := hmem
    refine ⟨hs.symm, ?_⟩
    intro err herr
    cases herr

/-- A run that answers from the cache dispatches no backfill. -/
theorem RunShape.hit_no_set {Err A P : Type} {src : A → Except Err P}
    {run : Run Err A P} (h : RunShape src run) (data : P)
    (hhit : run.outcome = Outcome.ok data true) : ∀ e ∈ run.trace, e.isCacheSet = false := by
  obtain ⟨pre, hpre, h⟩ := h
  rcases h with ⟨v, rfl⟩ | ⟨p, rfl⟩ | ⟨a1, err1, hs, rfl⟩ | ⟨a1, key, val, msg, hs, rfl⟩
  · intro e he; exact (hpre e he).2
  · intro e he; exact (hpre e he).2
  · simp at hhit
  · simp at hhit


theorem string_append_left_cancel (s a b : String) (h : s ++ a = s ++ b) : a = b := by
  have h1 := congrArg String.data h
  simp only [String.data_append] at h1
  exact String.ext (List.append_cancel_left h1)


/-! ### `strconv.Atoi` on canonical decimal text -/

theorem digitChar_digit (k : Nat) (hk : k < 10) :
    '0' ≤ Nat.digitChar k ∧ Nat.digitChar k ≤ '9' ∧
      (Nat.digitChar k).toNat - '0'.toNat = k ∧ Nat.digitChar k ≠ '-' ∧ Nat.digitChar k ≠ '+' := by
  interval_cases k <;> decide

theorem atoiFastLoop_append (l1 l2 : List Char) (m : Nat) :
    atoiFastLoop (l1 ++ l2) m = (atoiFastLoop l1 m).bind (atoiFastLoop l2) := by
  induction l1 generalizing m with
  | nil => rfl
  | cons ch rest ih =>
    simp only [List.cons_append, atoiFastLoop]
    split
    · exact ih _
    · rfl

theorem atoiFastLoop_ge (l : List Char) (m v : Nat) (h : atoiFastLoop l m = some v) : m ≤ v := by
  induction l generalizing m with
  | nil => simp [atoiFastLoop] at h; omega
  | cons ch rest ih =>
    simp only [atoiFastLoop] at h
    split at h
    · have := ih _ h
      omega
    · cases h

theorem parseUintLoop_of_fast (l : List Char) (m v : Nat) (h : atoiFastLoop l m = some v)
    (hv : v ≤ maxUint64) : parseUintLoop l m = .ok v := by
  induction l generalizing m with
  | nil => simp [atoiFastLoop] at h; simp [parseUintLoop, h]
  | cons ch rest ih =>
    simp only [atoiFastLoop] at h
    split at h
    · rename_i hd
      have hge := atoiFastLoop_ge _ _ _ h
      have hmax : maxUint64 = 18446744073709551615 := by decide
      rw [parseUintLoop, if_pos hd, if_neg (by omega), if_neg (by omega)]
      exact ih _ h
    · cases h

theorem toDigitsCore_spec (fuel n : Nat) (ds : List Char) (h : n < fuel) :
    ∃ ch rest, Nat.toDigitsCore 10 fuel n ds = (ch :: rest) ++ ds ∧
      ch ≠ '-' ∧ ch ≠ '+' ∧ atoiFastLoop (ch :: rest) 0 = some n := by
  induction fuel generalizing n ds with
  | zero => omega
  | succ fuel ih =>
    have hd := digitChar_digit (n % 10) (Nat.mod_lt _ (by decide))
    simp only [Nat.toDigitsCore]
    split
    · rename_i h0
      refine ⟨Nat.digitChar (n % 10), [], rfl, hd.2.2.2.1, hd.2.2.2.2, ?_⟩
      simp only [atoiFastLoop, hd.1, hd.2.1, and_self, if_true, hd.2.2.1]
      congr 1
      omega
    · rename_i h0
      obtain ⟨ch, rest, heq, h1, h2, hval⟩ := ih (n / 10) (Nat.digitChar (n % 10) :: ds) (by omega)
      refine ⟨ch, rest ++ [Nat.digitChar (n % 10)], by simp [heq], h1, h2, ?_⟩
      rw [← List.cons_append, atoiFastLoop_append, hval]
      simp only [Option.bind, atoiFastLoop, hd.1, hd.2.1, and_self, if_true, hd.2.2.1]
      congr 1
      omega

/-- `strconv.Atoi` reads back the decimal form of every natural number that fits a
64-bit `int`. -/
theorem Atoi_toString (n : Nat) (hn : n < 2 ^ 63) : Atoi (toString n) = .ok (n : Int) := by
  obtain ⟨ch, rest, heq, h1, h2, hval⟩ := toDigitsCore_spec (n + 1) n [] (by omega)
  have hdata : (toString n).data = ch :: rest := by
    show (Nat.repr n).data = _
    simp [Nat.repr, Nat.toDigits, heq, List.asString]
  unfold Atoi
  split
  · simp [hdata, h1, h2, hval]
  · have hmax : maxUint64 = 18446744073709551615 := by decide
    have hu := parseUintLoop_of_fast _ _ _ hval (by omega)
    have h63 : ¬ 9223372036854775808 ≤ n := by omega
    simp [hdata, ParseInt, ParseUint, h1, h2, hu, h63]

theorem toUint_natCast (n : Nat) (hn : n < 2 ^ 63) : toUint (n : Int) = n := by
  unfold toUint
  omega

/-! ## Claims -/

/-- C1 (cache hit path).  For a request without the bypass flag (`no_cache` absent
or `0`), when `cache.Get` for the derived key leaves a payload that is not
structurally empty, the handler answers with exactly that payload and
`isFromCache = true`, and the product service is never called.  Holds for
`GetAllProduct` and for `GetProductById`. -/
theorem cache_hit_served_from_cache {Err Pg P Q : Type}
    (d : AllDeps Err Pg P) (b : ByIdDeps Err Q) (c : Request)
    (hflag : lookupFirst "no_cache" c.query = none ∨ lookupFirst "no_cache" c.query = some "0") :
    (∀ pg hash err p,
      d.GeneratePaginationFromRequest c = .ok pg → d.HashFromStruct pg = .ok hash →
      d.cacheGet (Ctx.withTimeout Ctx.request 3) ("GetAllProduct:all:" ++ hash) d.zero = (err, p) →
      d.IsEmpty p = false →
        (GetAllProduct d c).outcome = Outcome.ok p true ∧
        ∀ e ∈ (GetAllProduct d c).trace, e.isSource = false) ∧
    (∀ id err q,
      Atoi (c.Param "id") = .ok id →
      b.cacheGet (Ctx.withTimeout Ctx.request 3) ("GetProductById:" ++ c.Param "id") b.zero
        = (err, q) →
      b.IsEmpty q = false →
        (GetProductById b c).outcome = Outcome.ok q true ∧
        ∀ e ∈ (GetProductById b c).trace, e.isSource = false) := by
  have hq := (defaultQuery_noCache c).2 hflag
  constructor
  · intro pg hash err p hpg hhash hget hne
    rw [GetAllProduct_derived d c pg hash hpg hhash,
      readThrough_read d.cacheGet c _ d.zero err p hq hget]
    cases err <;> simp [hne, Event.isSource]
  · intro id err q hid hget hne
    rw [GetProductById_derived b c id hid,
      readThrough_read b.cacheGet c _ b.zero err q hq hget]
    cases err <;> simp [hne, Event.isSource]

/-- Witness for C1: a listing request and a lookup of product 42, both without
`no_cache`, with a non-empty cached payload. -/
theorem cache_hit_served_from_cache_witness :
    (GetAllProduct (sampleAll (none, ⟨[7], 1, 10, 1⟩) (.ok ⟨[8], 1, 10, 1⟩))
        (sampleRequest "42" [])).outcome = Outcome.ok ⟨[7], 1, 10, 1⟩ true ∧
    (GetProductById (sampleById (none, ⟨42, "tea"⟩) (.ok ⟨42, "coffee"⟩))
        (sampleRequest "42" [])).outcome = Outcome.ok ⟨42, "tea"⟩ true :=
  ⟨((cache_hit_served_from_cache (sampleAll (none, ⟨[7], 1, 10, 1⟩) (.ok ⟨[8], 1, 10, 1⟩))
      (sampleById (none, ⟨42, "tea"⟩) (.ok ⟨42, "coffee"⟩)) (sampleRequest "42" [])
      (Or.inl rfl)).1 (1, 10) "h" none ⟨[7], 1, 10, 1⟩ rfl rfl rfl rfl).1,
   ((cache_hit_served_from_cache (sampleAll (none, ⟨[7], 1, 10, 1⟩) (.ok ⟨[8], 1, 10, 1⟩))
      (sampleById (none, ⟨42, "tea"⟩) (.ok ⟨42, "coffee"⟩)) (sampleRequest "42" [])
      (Or.inl rfl)).2 42 none ⟨42, "tea"⟩ (by decide) rfl (by decide)).1⟩


/-- C2 (cache miss path).  For a request without the bypass flag, when `cache.Get`
finds nothing for the derived key (the destination keeps its zero value, which is
structurally empty) and the product service returns `r` without error, the handler
answers with `r` and `isFromCache = false`, the product service is called once,
and exactly one backfill is dispatched, with the key of the `Get` and the value
`r`.  Holds for `GetAllProduct` and for `GetProductById`. -/
theorem cache_miss_fetches_and_backfills {Err Pg P Q : Type}
    (d : AllDeps Err Pg P) (b : ByIdDeps Err Q) (c : Request)
    (hflag : lookupFirst "no_cache" c.query = none ∨ lookupFirst "no_cache" c.query = some "0") :
    (∀ pg hash r,
      d.GeneratePaginationFromRequest c = .ok pg → d.HashFromStruct pg = .ok hash →
      (d.cacheGet (Ctx.withTimeout Ctx.request 3) ("GetAllProduct:all:" ++ hash) d.zero).2
        = d.zero →
      d.IsEmpty d.zero = true → d.GetAll pg = .ok r →
        (GetAllProduct d c).outcome = Outcome.ok r false ∧
        (GetAllProduct d c).trace.filter Event.isCacheGet =
          [Event.cacheGet (Ctx.withTimeout Ctx.request 3) ("GetAllProduct:all:" ++ hash)
            (d.cacheGet (Ctx.withTimeout Ctx.request 3) ("GetAllProduct:all:" ++ hash) d.zero).1
            d.zero] ∧
        (GetAllProduct d c).trace.filter Event.isSource = [Event.source pg (.ok r)] ∧
        (GetAllProduct d c).trace.filter Event.isCacheSet =
          [Event.goCacheSet (Ctx.withTimeout Ctx.request 3) ("GetAllProduct:all:" ++ hash) r]) ∧
    (∀ id r,
      Atoi (c.Param "id") = .ok id →
      (b.cacheGet (Ctx.withTimeout Ctx.request 3) ("GetProductById:" ++ c.Param "id") b.zero).2
        = b.zero →
      b.IsEmpty b.zero = true → b.GetById (toUint id) = .ok r →
        (GetProductById b c).outcome = Outcome.ok r false ∧
        (GetProductById b c).trace.filter Event.isCacheGet =
          [Event.cacheGet (Ctx.withTimeout Ctx.request 3) ("GetProductById:" ++ c.Param "id")
            (b.cacheGet (Ctx.withTimeout Ctx.request 3) ("GetProductById:" ++ c.Param "id")
              b.zero).1 b.zero] ∧
        (GetProductById b c).trace.filter Event.isSource = [Event.source (toUint id) (.ok r)] ∧
        (GetProductById b c).trace.filter Event.isCacheSet =
          [Event.goCacheSet (Ctx.withTimeout Ctx.request 3) ("GetProductById:" ++ c.Param "id")
            r]) := by
  have hq := (defaultQuery_noCache c).2 hflag
  constructor
  · intro pg hash r hpg hhash hmiss hzero hsrc
    rcases hget : d.cacheGet (Ctx.withTimeout Ctx.request 3) ("GetAllProduct:all:" ++ hash)
      d.zero with ⟨err, p⟩
    rw [hget] at hmiss
    simp only at hmiss
    subst hmiss
    rw [GetAllProduct_derived d c pg hash hpg hhash,
      readThrough_read d.cacheGet c _ d.zero err d.zero hq hget]
    cases err <;>
      simp [hzero, hsrc, List.filter_cons, Event.isCacheGet, Event.isSource, Event.isCacheSet]
  · intro id r hid hmiss hzero hsrc
    rcases hget : b.cacheGet (Ctx.withTimeout Ctx.request 3) ("GetProductById:" ++ c.Param "id")
      b.zero with ⟨err, q⟩
    rw [hget] at hmiss
    simp only at hmiss
    subst hmiss
    rw [GetProductById_derived b c id hid,
      readThrough_read b.cacheGet c _ b.zero err b.zero hq hget]
    cases err <;>
      simp [hzero, hsrc, List.filter_cons, Event.isCacheGet, Event.isSource, Event.isCacheSet]

/-- Witness for C2: a listing request and a lookup of product 42 that miss the
cache and are answered by the product service. -/
theorem cache_miss_fetches_and_backfills_witness :
    (GetAllProduct (sampleAll (none, ⟨[], 0, 0, 0⟩) (.ok ⟨[8], 1, 10, 1⟩))
        (sampleRequest "42" [("no_cache", "0")])).outcome = Outcome.ok ⟨[8], 1, 10, 1⟩ false ∧
    (GetProductById (sampleById (none, ⟨0, ""⟩) (.ok ⟨42, "coffee"⟩))
        (sampleRequest "42" [("no_cache", "0")])).trace.filter Event.isCacheSet =
      [Event.goCacheSet (Ctx.withTimeout Ctx.request 3) ("GetProductById:" ++ "42")
        ⟨42, "coffee"⟩] :=
  ⟨((cache_miss_fetches_and_backfills (sampleAll (none, ⟨[], 0, 0, 0⟩) (.ok ⟨[8], 1, 10, 1⟩))
      (sampleById (none, ⟨0, ""⟩) (.ok ⟨42, "coffee"⟩)) (sampleRequest "42" [("no_cache", "0")])
      (Or.inr rfl)).1 (1, 10) "h" ⟨[8], 1, 10, 1⟩ rfl rfl rfl rfl rfl).1,
   ((cache_miss_fetches_and_backfills (sampleAll (none, ⟨[], 0, 0, 0⟩) (.ok ⟨[8], 1, 10, 1⟩))
      (sampleById (none, ⟨0, ""⟩) (.ok ⟨42, "coffee"⟩)) (sampleRequest "42" [("no_cache", "0")])
      (Or.inr rfl)).2 42 ⟨42, "coffee"⟩ (by decide) rfl (by decide) rfl).2.2.2⟩


/-- C8 (structurally empty cached payloads count as misses).  For a request
without the bypass flag, when `cache.Get` succeeds but leaves a structurally empty
payload, the handler calls the product service once and its outcome is the
result of the service: the returned value with `isFromCache = false`, or a panic
on the returned error.  It never answers with `isFromCache = true`.  Holds for
`GetAllProduct` and for `GetProductById`. -/
theorem empty_cached_payload_is_miss {Err Pg P Q : Type}
    (d : AllDeps Err Pg P) (b : ByIdDeps Err Q) (c : Request)
    (hflag : lookupFirst "no_cache" c.query = none ∨ lookupFirst "no_cache" c.query = some "0") :
    (∀ pg hash p,
      d.GeneratePaginationFromRequest c = .ok pg → d.HashFromStruct pg = .ok hash →
      d.cacheGet (Ctx.withTimeout Ctx.request 3) ("GetAllProduct:all:" ++ hash) d.zero
        = (none, p) →
      d.IsEmpty p = true →
        (GetAllProduct d c).trace.filter Event.isSource = [Event.source pg (d.GetAll pg)] ∧
        (GetAllProduct d c).outcome =
          (match d.GetAll pg with
            | .ok r => Outcome.ok r false
            | .error e => Outcome.panic e) ∧
        (∀ data, (GetAllProduct d c).outcome ≠ Outcome.ok data true)) ∧
    (∀ id q,
      Atoi (c.Param "id") = .ok id →
      b.cacheGet (Ctx.withTimeout Ctx.request 3) ("GetProductById:" ++ c.Param "id") b.zero
        = (none, q) →
      b.IsEmpty q = true →
        (GetProductById b c).trace.filter Event.isSource =
          [Event.source (toUint id) (b.GetById (toUint id))] ∧
        (GetProductById b c).outcome =
          (match b.GetById (toUint id) with
            | .ok r => Outcome.ok r false
            | .error e => Outcome.panic e) ∧
        (∀ data, (GetProductById b c).outcome ≠ Outcome.ok data true)) := by
  have hq := (defaultQuery_noCache c).2 hflag
  constructor
  · intro pg hash p hpg hhash hget hempty
    rw [GetAllProduct_derived d c pg hash hpg hhash,
      readThrough_read d.cacheGet c _ d.zero none p hq hget]
    cases hsrc : d.GetAll pg <;>
      simp [hempty, List.filter_cons, Event.isSource]
  · intro id q hid hget hempty
    rw [GetProductById_derived b c id hid,
      readThrough_read b.cacheGet c _ b.zero none q hq hget]
    cases hsrc : b.GetById (toUint id) <;>
      simp [hempty, List.filter_cons, Event.isSource]

/-- Witness for C8: the cache holds a page with zero items, and an empty product. -/
theorem empty_cached_payload_is_miss_witness :
    (GetAllProduct (sampleAll (none, ⟨[], 1, 10, 0⟩) (.ok ⟨[8], 1, 10, 1⟩))
        (sampleRequest "42" [])).outcome = Outcome.ok ⟨[8], 1, 10, 1⟩ false ∧
    (GetProductById (sampleById (none, ⟨0, ""⟩) (.ok ⟨42, "coffee"⟩))
        (sampleRequest "42" [])).outcome = Outcome.ok ⟨42, "coffee"⟩ false :=
  ⟨((empty_cached_payload_is_miss (sampleAll (none, ⟨[], 1, 10, 0⟩) (.ok ⟨[8], 1, 10, 1⟩))
      (sampleById (none, ⟨0, ""⟩) (.ok ⟨42, "coffee"⟩)) (sampleRequest "42" [])
      (Or.inl rfl)).1 (1, 10) "h" ⟨[], 1, 10, 0⟩ rfl rfl rfl rfl).2.1,
   ((empty_cached_payload_is_miss (sampleAll (none, ⟨[], 1, 10, 0⟩) (.ok ⟨[8], 1, 10, 1⟩))
      (sampleById (none, ⟨0, ""⟩) (.ok ⟨42, "coffee"⟩)) (sampleRequest "42" [])
      (Or.inl rfl)).2 42 ⟨0, ""⟩ (by decide) rfl (by decide)).2.1⟩

/-- C5 (authoritative failure path).  In every run of `GetAllProduct` and of
`GetProductById`, a recorded call of the product service carries what the service
returned, and when that is an error `err` the handler panics with exactly `err`
and dispatches no backfill. -/
theorem authoritative_failure_is_fatal {Err Pg P Q : Type}
    (d : AllDeps Err Pg P) (b : ByIdDeps Err Q) (c : Request) :
    (∀ pg res, Event.source pg res ∈ (GetAllProduct d c).trace →
      res = d.GetAll pg ∧
      ∀ err, res = .error err →
        (GetAllProduct d c).outcome = Outcome.panic err ∧
        ∀ e ∈ (GetAllProduct d c).trace, e.isCacheSet = false) ∧
    (∀ uid res, Event.source uid res ∈ (GetProductById b c).trace →
      res = b.GetById uid ∧
      ∀ err, res = .error err →
        (GetProductById b c).outcome = Outcome.panic err ∧
        ∀ e ∈ (GetProductById b c).trace, e.isCacheSet = false) :=
  ⟨fun pg res hmem => (GetAllProduct_shape d c).source_result pg res hmem,
   fun uid res hmem => (GetProductById_shape b c).source_result uid res hmem⟩

/-- Witness for C5: the product service fails with `db down` after a cache miss
(listing) and with the bypass flag set (lookup of product 42). -/
theorem authoritative_failure_is_fatal_witness :
    (GetAllProduct (sampleAll (none, ⟨[], 0, 0, 0⟩) (.error "db down"))
        (sampleRequest "42" [("no_cache", "1")])).outcome = Outcome.panic "db down" ∧
    (GetProductById (sampleById (none, ⟨42, "tea"⟩) (.error "db down"))
        (sampleRequest "42" [("no_cache", "1")])).outcome = Outcome.panic "db down" :=
  ⟨(((authoritative_failure_is_fatal (sampleAll (none, ⟨[], 0, 0, 0⟩) (.error "db down"))
      (sampleById (none, ⟨42, "tea"⟩) (.error "db down"))
      (sampleRequest "42" [("no_cache", "1")])).1 (1, 10) (.error "db down")
        (by decide)).2 "db down" rfl).1,
   (((authoritative_failure_is_fatal (sampleAll (none, ⟨[], 0, 0, 0⟩) (.error "db down"))
      (sampleById (none, ⟨42, "tea"⟩) (.error "db down"))
      (sampleRequest "42" [("no_cache", "1")])).2 42 (.error "db down")
        (by decide)).2 "db down" rfl).1⟩


/-- C7 (backfill exactly after a successful fetch).  In every run of
`GetAllProduct` and of `GetProductById` at most one backfill is dispatched; one is
dispatched if and only if the product service was called and returned without
error; and a run answered from the cache dispatches none. -/
theorem backfill_iff_fetch_succeeded {Err Pg P Q : Type}
    (d : AllDeps Err Pg P) (b : ByIdDeps Err Q) (c : Request) :
    (countSets (GetAllProduct d c).trace ≤ 1 ∧
      ((∃ ctx key val, Event.goCacheSet ctx key val ∈ (GetAllProduct d c).trace) ↔
        (∃ pg r, Event.source pg (.ok r) ∈ (GetAllProduct d c).trace ∧ d.GetAll pg = .ok r)) ∧
      (∀ data, (GetAllProduct d c).outcome = Outcome.ok data true →
        ∀ e ∈ (GetAllProduct d c).trace, e.isCacheSet = false)) ∧
    (countSets (GetProductById b c).trace ≤ 1 ∧
      ((∃ ctx key val, Event.goCacheSet ctx key val ∈ (GetProductById b c).trace) ↔
        (∃ uid r, Event.source uid (.ok r) ∈ (GetProductById b c).trace ∧
          b.GetById uid = .ok r)) ∧
      (∀ data, (GetProductById b c).outcome = Outcome.ok data true →
        ∀ e ∈ (GetProductById b c).trace, e.isCacheSet = false)) :=
  ⟨⟨(GetAllProduct_shape d c).countSets_le_one, (GetAllProduct_shape d c).set_iff_source_ok,
      fun data h => (GetAllProduct_shape d c).hit_no_set data h⟩,
   ⟨(GetProductById_shape b c).countSets_le_one, (GetProductById_shape b c).set_iff_source_ok,
      fun data h => (GetProductById_shape b c).hit_no_set data h⟩⟩

/-- Witness for C7: a listing answered from the cache dispatches no backfill, and
a lookup of product 42 answered by the product service dispatches exactly one. -/
theorem backfill_iff_fetch_succeeded_witness :
    (∀ e ∈ (GetAllProduct (sampleAll (none, ⟨[7], 1, 10, 1⟩) (.ok ⟨[8], 1, 10, 1⟩))
        (sampleRequest "42" [])).trace, e.isCacheSet = false) ∧
    (∃ ctx key val, Event.goCacheSet ctx key val ∈
      (GetProductById (sampleById (none, ⟨0, ""⟩) (.ok ⟨42, "coffee"⟩))
        (sampleRequest "42" [])).trace) :=
  ⟨(backfill_iff_fetch_succeeded (sampleAll (none, ⟨[7], 1, 10, 1⟩) (.ok ⟨[8], 1, 10, 1⟩))
      (sampleById (none, ⟨0, ""⟩) (.ok ⟨42, "coffee"⟩)) (sampleRequest "42" [])).1.2.2
      ⟨[7], 1, 10, 1⟩ (by decide),
   (backfill_iff_fetch_succeeded (sampleAll (none, ⟨[7], 1, 10, 1⟩) (.ok ⟨[8], 1, 10, 1⟩))
      (sampleById (none, ⟨0, ""⟩) (.ok ⟨42, "coffee"⟩)) (sampleRequest "42" [])).2.2.1.2
      ⟨42, ⟨42, "coffee"⟩, by decide, rfl⟩⟩

/-- C9 (key-derivation failure is fatal and comes first).  When
`util.GeneratePaginationFromRequest` or `util.HashFromStruct` returns an error,
`GetAllProduct` panics with that error, and when the `id` path parameter is
rejected by `strconv.Atoi`, `GetProductById` panics with
`errorconstants.INTERNAL_ERROR`; in both cases without calling `cache.Get`, the
product service or `cache.Set`. -/
theorem key_derivation_failure_comes_first {Err Pg P Q : Type}
    (d : AllDeps Err Pg P) (b : ByIdDeps Err Q) (c : Request) :
    (∀ err,
      (d.GeneratePaginationFromRequest c = .error err ∨
        ∃ pg, d.GeneratePaginationFromRequest c = .ok pg ∧ d.HashFromStruct pg = .error err) →
        (GetAllProduct d c).outcome = Outcome.panic err ∧
        ∀ e ∈ (GetAllProduct d c).trace,
          e.isCacheGet = false ∧ e.isSource = false ∧ e.isCacheSet = false) ∧
    (∀ nerr, Atoi (c.Param "id") = .error nerr →
        (GetProductById b c).outcome = Outcome.panic b.INTERNAL_ERROR ∧
        ∀ e ∈ (GetProductById b c).trace,
          e.isCacheGet = false ∧ e.isSource = false ∧ e.isCacheSet = false) := by
  constructor
  · rintro err (hpg | ⟨pg, hpg, hhash⟩)
    · simp [GetAllProduct, hpg, Event.isCacheGet, Event.isSource, Event.isCacheSet]
    · simp [GetAllProduct, hpg, hhash, Event.isCacheGet, Event.isSource, Event.isCacheSet]
  · intro nerr hid
    simp [GetProductById, hid, Event.isCacheGet, Event.isSource, Event.isCacheSet]

/-- Witness for C9: a listing whose descriptor cannot be hashed, and a lookup
with the path parameter `abc`. -/
theorem key_derivation_failure_comes_first_witness :
    (GetAllProduct sampleAllNoHash (sampleRequest "abc" [])).outcome
      = Outcome.panic "unsupported type" ∧
    (GetProductById (sampleById (none, ⟨42, "tea"⟩) (.ok ⟨42, "coffee"⟩))
      (sampleRequest "abc" [])).outcome = Outcome.panic "internal error" :=
  ⟨((key_derivation_failure_comes_first sampleAllNoHash
      (sampleById (none, ⟨42, "tea"⟩) (.ok ⟨42, "coffee"⟩)) (sampleRequest "abc" [])).1
      "unsupported type" (Or.inr ⟨(1, 10), rfl, rfl⟩)).1,
   ((key_derivation_failure_comes_first sampleAllNoHash
      (sampleById (none, ⟨42, "tea"⟩) (.ok ⟨42, "coffee"⟩)) (sampleRequest "abc" [])).2
      ⟨"Atoi", "abc", NumErrKind.ErrSyntax⟩ (by decide)).1⟩


/-- C4 as amended (bypass path).  For a request with the bypass flag set
(`no_cache` present with a first value other than `0`), `cache.Get` is never
called; and when key derivation succeeds (the zero value of the payload being
structurally empty) the product service is called exactly once and, on its
success, the handler answers with its result and `isFromCache = false`, whatever
`cache.Get` would have returned.  Holds for `GetAllProduct` and for
`GetProductById`. -/
theorem bypass_skips_cache {Err Pg P Q : Type}
    (d : AllDeps Err Pg P) (b : ByIdDeps Err Q) (c : Request) (v : String)
    (hv : lookupFirst "no_cache" c.query = some v) (hne : v ≠ "0") :
    ((∀ e ∈ (GetAllProduct d c).trace, e.isCacheGet = false) ∧
      ∀ pg hash,
        d.GeneratePaginationFromRequest c = .ok pg → d.HashFromStruct pg = .ok hash →
        d.IsEmpty d.zero = true →
          (GetAllProduct d c).trace.filter Event.isSource = [Event.source pg (d.GetAll pg)] ∧
          ∀ r, d.GetAll pg = .ok r → (GetAllProduct d c).outcome = Outcome.ok r false) ∧
    ((∀ e ∈ (GetProductById b c).trace, e.isCacheGet = false) ∧
      ∀ id,
        Atoi (c.Param "id") = .ok id → b.IsEmpty b.zero = true →
          (GetProductById b c).trace.filter Event.isSource =
            [Event.source (toUint id) (b.GetById (toUint id))] ∧
          ∀ r, b.GetById (toUint id) = .ok r →
            (GetProductById b c).outcome = Outcome.ok r false) := by
  have hq := defaultQuery_bypass c v hv hne
  refine ⟨⟨?_, ?_⟩, ⟨?_, ?_⟩⟩
  · cases hpg : d.GeneratePaginationFromRequest c with
    | error err => simp [GetAllProduct, hpg, Event.isCacheGet]
    | ok pg =>
      cases hhash : d.HashFromStruct pg with
      | error err => simp [GetAllProduct, hpg, hhash, Event.isCacheGet]
      | ok hash =>
        rw [GetAllProduct_derived d c pg hash hpg hhash, readThrough_bypass d.cacheGet c _ _ hq]
        cases d.IsEmpty d.zero <;> cases d.GetAll pg <;> simp [Event.isCacheGet]
  · intro pg hash hpg hhash hzero
    rw [GetAllProduct_derived d c pg hash hpg hhash, readThrough_bypass d.cacheGet c _ _ hq]
    cases hsrc : d.GetAll pg <;> simp [hzero, List.filter_cons, Event.isSource]
  · cases hid : Atoi (c.Param "id") with
    | error err => simp [GetProductById, hid, Event.isCacheGet]
    | ok id =>
      rw [GetProductById_derived b c id hid, readThrough_bypass b.cacheGet c _ _ hq]
      cases b.IsEmpty b.zero <;> cases b.GetById (toUint id) <;> simp [Event.isCacheGet]
  · intro id hid hzero
    rw [GetProductById_derived b c id hid, readThrough_bypass b.cacheGet c _ _ hq]
    cases hsrc : b.GetById (toUint id) <;> simp [hzero, List.filter_cons, Event.isSource]

/-- Witness for C4 as amended: `no_cache=1` with a populated cache. -/
theorem bypass_skips_cache_witness :
    (GetAllProduct (sampleAll (none, ⟨[7], 1, 10, 1⟩) (.ok ⟨[8], 1, 10, 1⟩))
        (sampleRequest "42" [("no_cache", "1")])).outcome = Outcome.ok ⟨[8], 1, 10, 1⟩ false ∧
    (GetProductById (sampleById (none, ⟨42, "tea"⟩) (.ok ⟨42, "coffee"⟩))
        (sampleRequest "42" [("no_cache", "1")])).outcome = Outcome.ok ⟨42, "coffee"⟩ false :=
  ⟨((bypass_skips_cache (sampleAll (none, ⟨[7], 1, 10, 1⟩) (.ok ⟨[8], 1, 10, 1⟩))
      (sampleById (none, ⟨42, "tea"⟩) (.ok ⟨42, "coffee"⟩))
      (sampleRequest "42" [("no_cache", "1")]) "1" rfl (by decide)).1.2
      (1, 10) "h" rfl rfl rfl).2 ⟨[8], 1, 10, 1⟩ rfl,
   ((bypass_skips_cache (sampleAll (none, ⟨[7], 1, 10, 1⟩) (.ok ⟨[8], 1, 10, 1⟩))
      (sampleById (none, ⟨42, "tea"⟩) (.ok ⟨42, "coffee"⟩))
      (sampleRequest "42" [("no_cache", "1")]) "1" rfl (by decide)).2.2
      42 (by decide) (by decide)).2 ⟨42, "coffee"⟩ rfl⟩

/-- C4 as stated fails: with the bypass flag set, a listing whose descriptor
cannot be hashed and a lookup with the path parameter `abc` end in a panic
without any call of the product service. -/
theorem bypass_source_always_invoked_counterexample :
    lookupFirst "no_cache" (sampleRequest "abc" [("no_cache", "1")]).query = some "1" ∧
    (GetAllProduct sampleAllNoHash (sampleRequest "abc" [("no_cache", "1")])).trace.filter
      Event.isSource = [] ∧
    (GetAllProduct sampleAllNoHash (sampleRequest "abc" [("no_cache", "1")])).outcome
      = Outcome.panic "unsupported type" ∧
    (GetProductById (sampleById (none, ⟨42, "tea"⟩) (.ok ⟨42, "coffee"⟩))
      (sampleRequest "abc" [("no_cache", "1")])).trace.filter Event.isSource = [] ∧
    (GetProductById (sampleById (none, ⟨42, "tea"⟩) (.ok ⟨42, "coffee"⟩))
      (sampleRequest "abc" [("no_cache", "1")])).outcome = Outcome.panic "internal error" := by
  decide

/-- C3 as amended (cache-unavailable path).  For a request without the bypass
flag whose `cache.Get` returns an error: the error is logged; the handler panics
only with an error returned by the product service; and when the `Get` left its
destination structurally empty the run is that of a miss: the product service is
called once, its result decides the outcome (answer with `isFromCache = false`,
or panic on its error) and the backfill.  Holds for `GetAllProduct` and for
`GetProductById`. -/
theorem cache_get_error_degrades_to_miss {Err Pg P Q : Type}
    (d : AllDeps Err Pg P) (b : ByIdDeps Err Q) (c : Request)
    (hflag : lookupFirst "no_cache" c.query = none ∨ lookupFirst "no_cache" c.query = some "0") :
    (∀ pg hash err p,
      d.GeneratePaginationFromRequest c = .ok pg → d.HashFromStruct pg = .ok hash →
      d.cacheGet (Ctx.withTimeout Ctx.request 3) ("GetAllProduct:all:" ++ hash) d.zero
        = (some err, p) →
        Event.logError err ∈ (GetAllProduct d c).trace ∧
        (∀ v, (GetAllProduct d c).outcome = Outcome.panic v → d.GetAll pg = .error v) ∧
        (d.IsEmpty p = true →
          (GetAllProduct d c).trace.filter Event.isSource = [Event.source pg (d.GetAll pg)] ∧
          (GetAllProduct d c).outcome =
            (match d.GetAll pg with
              | .ok r => Outcome.ok r false
              | .error e => Outcome.panic e) ∧
          (GetAllProduct d c).trace.filter Event.isCacheSet =
            (match d.GetAll pg with
              | .ok r => [Event.goCacheSet (Ctx.withTimeout Ctx.request 3)
                  ("GetAllProduct:all:" ++ hash) r]
              | .error _ => []))) ∧
    (∀ id err q,
      Atoi (c.Param "id") = .ok id →
      b.cacheGet (Ctx.withTimeout Ctx.request 3) ("GetProductById:" ++ c.Param "id") b.zero
        = (some err, q) →
        Event.logError err ∈ (GetProductById b c).trace ∧
        (∀ v, (GetProductById b c).outcome = Outcome.panic v →
          b.GetById (toUint id) = .error v) ∧
        (b.IsEmpty q = true →
          (GetProductById b c).trace.filter Event.isSource =
            [Event.source (toUint id) (b.GetById (toUint id))] ∧
          (GetProductById b c).outcome =
            (match b.GetById (toUint id) with
              | .ok r => Outcome.ok r false
              | .error e => Outcome.panic e) ∧
          (GetProductById b c).trace.filter Event.isCacheSet =
            (match b.GetById (toUint id) with
              | .ok r => [Event.goCacheSet (Ctx.withTimeout Ctx.request 3)
                  ("GetProductById:" ++ c.Param "id") r]
              | .error _ => []))) := by
  have hq := (defaultQuery_noCache c).2 hflag
  constructor
  · intro pg hash err p hpg hhash hget
    rw [GetAllProduct_derived d c pg hash hpg hhash,
      readThrough_read d.cacheGet c _ d.zero (some err) p hq hget]
    cases hE : d.IsEmpty p <;> cases hsrc : d.GetAll pg <;>
      simp [List.filter_cons, Event.isSource, Event.isCacheSet]
  · intro id err q hid hget
    rw [GetProductById_derived b c id hid,
      readThrough_read b.cacheGet c _ b.zero (some err) q hq hget]
    cases hE : b.IsEmpty q <;> cases hsrc : b.GetById (toUint id) <;>
      simp [List.filter_cons, Event.isSource, Event.isCacheSet]

/-- Witness for C3 as amended: `cache.Get` times out and leaves its destination
untouched. -/
theorem cache_get_error_degrades_to_miss_witness :
    (GetAllProduct (sampleAll (some "timeout", ⟨[], 0, 0, 0⟩) (.ok ⟨[8], 1, 10, 1⟩))
        (sampleRequest "42" [])).outcome = Outcome.ok ⟨[8], 1, 10, 1⟩ false ∧
    (GetProductById (sampleById (some "timeout", ⟨0, ""⟩) (.ok ⟨42, "coffee"⟩))
        (sampleRequest "42" [])).outcome = Outcome.ok ⟨42, "coffee"⟩ false :=
  ⟨(((cache_get_error_degrades_to_miss
      (sampleAll (some "timeout", ⟨[], 0, 0, 0⟩) (.ok ⟨[8], 1, 10, 1⟩))
      (sampleById (some "timeout", ⟨0, ""⟩) (.ok ⟨42, "coffee"⟩)) (sampleRequest "42" [])
      (Or.inl rfl)).1 (1, 10) "h" "timeout" ⟨[], 0, 0, 0⟩ rfl rfl rfl).2.2 rfl).2.1,
   (((cache_get_error_degrades_to_miss
      (sampleAll (some "timeout", ⟨[], 0, 0, 0⟩) (.ok ⟨[8], 1, 10, 1⟩))
      (sampleById (some "timeout", ⟨0, ""⟩) (.ok ⟨42, "coffee"⟩)) (sampleRequest "42" [])
      (Or.inl rfl)).2 42 "timeout" ⟨0, ""⟩ (by decide) rfl).2.2 (by decide)).2.1⟩

/-- C3 as stated fails: when `cache.Get` returns an error but has left a
non-empty value in its destination, the handler answers with that value and
`isFromCache = true` and the product service is not called. -/
theorem cache_get_error_still_hit_counterexample :
    Event.logError "context deadline exceeded" ∈
      (GetAllProduct (sampleAll (some "context deadline exceeded", ⟨[7], 1, 10, 1⟩) (.ok ⟨[8], 1, 10, 1⟩))
        (sampleRequest "42" [])).trace ∧
    (GetAllProduct (sampleAll (some "context deadline exceeded", ⟨[7], 1, 10, 1⟩) (.ok ⟨[8], 1, 10, 1⟩))
        (sampleRequest "42" [])).outcome = Outcome.ok ⟨[7], 1, 10, 1⟩ true ∧
    (GetAllProduct (sampleAll (some "context deadline exceeded", ⟨[7], 1, 10, 1⟩) (.ok ⟨[8], 1, 10, 1⟩))
        (sampleRequest "42" [])).trace.filter Event.isSource = [] ∧
    (GetProductById (sampleById (some "context deadline exceeded", ⟨42, ""⟩) (.ok ⟨42, "coffee"⟩))
        (sampleRequest "42" [])).outcome = Outcome.ok ⟨42, ""⟩ true ∧
    (GetProductById (sampleById (some "context deadline exceeded", ⟨42, ""⟩) (.ok ⟨42, "coffee"⟩))
        (sampleRequest "42" [])).trace.filter Event.isSource = [] := by
  decide


/-- C6 as amended (key of `GetProductById`).  For a request whose `id` path
parameter is accepted by `strconv.Atoi`, every cache call of the run uses the key
`GetProductById:` followed by the path parameter exactly as received (unhashed),
the product service is asked for `uint(id)`, requests with the same parameter text
use the same key, and requests for different identifiers use different keys.  When
the parameter is the decimal string form of an identifier below `2 ^ 63`, that
identifier is the one looked up and the key is `GetProductById:` followed by its
string form. -/
theorem by_id_key_is_raw_parameter {Err Q : Type} (b : ByIdDeps Err Q)
    (c c2 : Request) (id id2 : Int)
    (hid : Atoi (c.Param "id") = .ok id) (hid2 : Atoi (c2.Param "id") = .ok id2) :
    (∀ e ∈ (GetProductById b c).trace, ∀ k, e.cacheKey? = some k →
      k = "GetProductById:" ++ c.Param "id") ∧
    (∀ uid res, Event.source uid res ∈ (GetProductById b c).trace → uid = toUint id) ∧
    (c.Param "id" = c2.Param "id" →
      "GetProductById:" ++ c.Param "id" = "GetProductById:" ++ c2.Param "id" ∧
      toUint id = toUint id2) ∧
    (toUint id ≠ toUint id2 →
      "GetProductById:" ++ c.Param "id" ≠ "GetProductById:" ++ c2.Param "id") ∧
    (∀ n : Nat, n < 2 ^ 63 → c.Param "id" = toString n →
      toUint id = n ∧
      "GetProductById:" ++ c.Param "id" = "GetProductById:" ++ toString (toUint id)) := by
  have hsame : c.Param "id" = c2.Param "id" → id = id2 := by
    intro h
    rw [h, hid2] at hid
    exact (Except.ok.inj hid).symm
  refine ⟨?_, ?_, ?_, ?_, ?_⟩
  · rw [GetProductById_derived b c id hid]
    by_cases hq : c.DefaultQuery "no_cache" "0" = "0"
    · rcases hget : b.cacheGet (Ctx.withTimeout Ctx.request 3)
        ("GetProductById:" ++ c.Param "id") b.zero with ⟨err, q⟩
      rw [readThrough_read b.cacheGet c _ b.zero err q hq hget]
      cases err <;> cases b.IsEmpty q <;> cases b.GetById (toUint id) <;>
        simp [Event.cacheKey?]
    · rw [readThrough_bypass b.cacheGet c _ _ hq]
      cases b.IsEmpty b.zero <;> cases b.GetById (toUint id) <;> simp [Event.cacheKey?]
  · rw [GetProductById_derived b c id hid]
    have hev := readThrough_events (A := Nat) b.cacheGet c ("GetProductById:" ++ c.Param "id")
      b.zero
    have hno : ∀ uid res, Event.source uid res ∉
        (readThrough (A := Nat) b.cacheGet c ("GetProductById:" ++ c.Param "id") b.zero).1 := by
      intro uid res hm
      simpa [Event.isSource] using (hev _ hm).1
    intro uid res
    cases b.IsEmpty (readThrough (A := Nat) b.cacheGet c ("GetProductById:" ++ c.Param "id")
        b.zero).2 <;> cases b.GetById (toUint id) <;> simp [hno] <;> intro h _ <;> exact h
  · intro h
    exact ⟨by rw [h], by rw [hsame h]⟩
  · intro hne hkey
    exact hne (by rw [hsame (string_append_left_cancel _ _ _ hkey)])
  · intro n hn hcanon
    rw [hcanon, Atoi_toString n hn] at hid
    have hidn : id = (n : Int) := (Except.ok.inj hid).symm
    have hu : toUint id = n := by rw [hidn]; exact toUint_natCast n hn
    exact ⟨hu, by rw [hu, hcanon]⟩


/-- Witness for C6 as amended: lookups with the path parameters `42` and `7`. -/
theorem by_id_key_is_raw_parameter_witness :
    (∀ e ∈ (GetProductById (sampleById (none, ⟨0, ""⟩) (.ok ⟨42, "coffee"⟩))
        (sampleRequest "42" [])).trace, ∀ k, e.cacheKey? = some k →
      k = "GetProductById:" ++ (sampleRequest "42" []).Param "id") ∧
    "GetProductById:" ++ (sampleRequest "42" []).Param "id" ≠
      "GetProductById:" ++ (sampleRequest "7" []).Param "id" ∧
    "GetProductById:" ++ (sampleRequest "42" []).Param "id" =
      "GetProductById:" ++ toString (toUint 42) :=
  ⟨(by_id_key_is_raw_parameter (sampleById (none, ⟨0, ""⟩) (.ok ⟨42, "coffee"⟩))
      (sampleRequest "42" []) (sampleRequest "7" []) 42 7 (by decide) (by decide)).1,
   (by_id_key_is_raw_parameter (sampleById (none, ⟨0, ""⟩) (.ok ⟨42, "coffee"⟩))
      (sampleRequest "42" []) (sampleRequest "7" []) 42 7 (by decide) (by decide)).2.2.2.1
      (by decide),
   ((by_id_key_is_raw_parameter (sampleById (none, ⟨0, ""⟩) (.ok ⟨42, "coffee"⟩))
      (sampleRequest "42" []) (sampleRequest "7" []) 42 7 (by decide) (by decide)).2.2.2.2
      42 (by decide) (by decide)).2⟩

/-- C6 as stated fails: the path parameters `42` and `042` are both accepted and
both look up product 42, yet the second request uses the key `GetProductById:042`,
which is neither the key of the first request nor `GetProductById:` followed by
the string form of 42. -/
theorem by_id_key_not_canonical_counterexample :
    Atoi "42" = .ok 42 ∧ Atoi "042" = .ok 42 ∧
    (GetProductById (sampleById (none, ⟨0, ""⟩) (.ok ⟨42, "coffee"⟩))
        (sampleRequest "42" [])).trace.filter Event.isSource =
      [Event.source 42 (.ok ⟨42, "coffee"⟩)] ∧
    (GetProductById (sampleById (none, ⟨0, ""⟩) (.ok ⟨42, "coffee"⟩))
        (sampleRequest "042" [])).trace.filter Event.isSource =
      [Event.source 42 (.ok ⟨42, "coffee"⟩)] ∧
    ((GetProductById (sampleById (none, ⟨0, ""⟩) (.ok ⟨42, "coffee"⟩))
        (sampleRequest "42" [])).trace.filter Event.isCacheSet).map Event.cacheKey? =
      [some "GetProductById:42"] ∧
    ((GetProductById (sampleById (none, ⟨0, ""⟩) (.ok ⟨42, "coffee"⟩))
        (sampleRequest "042" [])).trace.filter Event.isCacheSet).map Event.cacheKey? =
      [some "GetProductById:042"] ∧
    "GetProductById:042" ≠ "GetProductById:" ++ toString (toUint 42) := by
  decide


end ProductCrud
